import Mathlib

set_option maxHeartbeats 1000000

/-!
Shallow embedding of the Contact-Ticket Bridge implemented in
`src/xmpp_client.py` (class `XMPPClient`), together with theorems checking
the natural-language specification's claims against it.

Conventions of the embedding:
* Python dictionaries become association lists (`alookup` / `aset` / `aerase`).
* The thread-based ticket monitor becomes an explicit step function
  (`monitorStep`) plus a loop-runner (`monitorRun`) driven by a list of
  externally supplied poll outcomes.
* Fallible Python code paths return `Except`; a path on which the source can
  raise no exception is embedded as a function that always returns `.ok`.
* Wall-clock sleeping is recorded as data (the duration passed to
  `time.sleep`), never performed.
-/

deriving instance DecidableEq for Except

namespace XMPPBridge

/-! ## Association-list model of Python dictionaries -/

/-- `alookup m k` is Python `m[k]` / `m.get(k)` for a dict modelled as an
association list (first matching key wins). -/
def alookup {κ α : Type} [DecidableEq κ] : List (κ × α) → κ → Option α
  | [], _ => none
  | (k2, v) :: rest, k => if k2 = k then some v else alookup rest k

/-- `aset m k v` is Python `m[k] = v`: replaces the first binding of `k`, or
appends a new binding. -/
def aset {κ α : Type} [DecidableEq κ] : List (κ × α) → κ → α → List (κ × α)
  | [], k, v => [(k, v)]
  | (k2, v2) :: rest, k, v =>
    if k2 = k then (k, v) :: rest else (k2, v2) :: aset rest k v

/-- `aerase m k` is Python `m.pop(k, None)`: removes the first binding of `k`. -/
def aerase {κ α : Type} [DecidableEq κ] : List (κ × α) → κ → List (κ × α)
  | [], _ => []
  | (k2, v2) :: rest, k => if k2 = k then rest else (k2, v2) :: aerase rest k

theorem alookup_aset_self {κ α : Type} [DecidableEq κ]
    (m : List (κ × α)) (k : κ) (v : α) : alookup (aset m k v) k = some v := by
  induction m with
  | nil => simp [aset, alookup]
  | cons hd tl ih =>
    obtain ⟨k2, v2⟩ := hd
    by_cases h : k2 = k
    · simp [aset, h, alookup]
    · simp [aset, h, alookup, ih]

/-! ## Bare-address derivation (`sender.split('/')[0]`, lines 388-391, 550-553) -/

/-- Python `s.split('/')[0]`: every character before the first `'/'`,
or the whole string when no `'/'` occurs. -/
def toBareAddress (s : String) : String :=
  ⟨s.data.takeWhile (fun c => c ≠ '/')⟩

/-- The characters strictly after the first `'/'` of `s` (empty if none). -/
def afterFirstSlash (s : String) : List Char :=
  (s.data.dropWhile (fun c => c ≠ '/')).tail

theorem takeWhile_ne_append_of_mem {l : List Char} (h : '/' ∈ l) :
    l = l.takeWhile (fun c => c ≠ '/') ++ '/' :: (l.dropWhile (fun c => c ≠ '/')).tail := by
  induction l with
  | nil => cases h
  | cons a t ih =>
    by_cases ha : a = '/'
    · subst ha
      simp [List.takeWhile_cons, List.dropWhile_cons]
    · have ht : '/' ∈ t := by
        rcases List.mem_cons.mp h with h1 | h1
        · exact absurd h1.symm ha
        · exact h1
      simpa [List.takeWhile_cons, List.dropWhile_cons, ha] using ih ht

theorem slash_not_mem_takeWhile (l : List Char) :
    '/' ∉ l.takeWhile (fun c => c ≠ '/') := by
  intro hmem
  have := List.mem_takeWhile_imp hmem
  simp at this

theorem takeWhile_ne_of_not_mem {l : List Char} (h : '/' ∉ l) :
    l.takeWhile (fun c => c ≠ '/') = l := by
  induction l with
  | nil => rfl
  | cons a t ih =>
    have ha : a ≠ '/' := fun hc => h (hc ▸ List.mem_cons_self a t)
    have ht : '/' ∉ t := fun hc => h (List.mem_cons_of_mem a hc)
    rw [List.takeWhile_cons_of_pos (by simpa using ha), ih ht]

/-! ## Markdown link conversion (`_convert_markdown_links`, lines 764-782) -/

/-- Attempt to match the regex `\[([^\]]+)\]\(([^\)]+)\)` at the head of the
character list; on success returns the link text, the link target, and the
remaining characters. -/
def parseLinkAt : List Char → Option (List Char × List Char × List Char)
  | '[' :: rest =>
    let a := rest.takeWhile (fun c => c ≠ ']')
    if a.isEmpty then none
    else
      match rest.dropWhile (fun c => c ≠ ']') with
      | ']' :: '(' :: rest2 =>
        let b := rest2.takeWhile (fun c => c ≠ ')')
        if b.isEmpty then none
        else
          match rest2.dropWhile (fun c => c ≠ ')') with
          | ')' :: rest3 => some (a, b, rest3)
          | _ => none
      | _ => none
  | _ => none

/-- The substitution performed by `replace_link`: the bare target when text
and target coincide, otherwise `text: target`. -/
def linkReplacement (a b : List Char) : List Char :=
  if a = b then b else a ++ ':' :: ' ' :: b

/-- Left-to-right, non-overlapping substitution of markdown links, with fuel
bounded by the input length (each step consumes at least one character). -/
def convertAux : Nat → List Char → List Char
  | 0, cs => cs
  | _ + 1, [] => []
  | fuel + 1, c :: rest =>
    match parseLinkAt (c :: rest) with
    | some (a, b, rest3) => linkReplacement a b ++ convertAux fuel rest3
    | none => c :: convertAux fuel rest

/-- `_convert_markdown_links` (lines 764-782). -/
def convertMarkdownLinks (s : String) : String :=
  ⟨convertAux s.data.length s.data⟩

/-! ## `send_message` (lines 96-115) -/

/-- Observable effects of `send_message`: the stanza handed to the transport
and the transcript line handed to `_log_message`. -/
inductive SendEffect
  | xmppSend (to_jid body : String)
  | logLine (to_jid body : String) (fromAI : Bool)
deriving DecidableEq, Repr

inductive SendError
  | connectionError
deriving DecidableEq, Repr

/-- `send_message` (lines 96-115): raises `ConnectionError` when no connection
is established, otherwise converts markdown links, sends, and logs. -/
def send_message (connected : Bool) (to_jid body : String) (from_ai : Bool) :
    Except SendError (List SendEffect) :=
  if connected = false then Except.error SendError.connectionError
  else
    let b := convertMarkdownLinks body
    Except.ok [SendEffect.xmppSend to_jid b, SendEffect.logLine to_jid b from_ai]

/-- C9: for every full address with a resource part, the bare-address
derivation removes exactly the first `'/'` and everything after it (the
result is the slash-free prefix and the original is that prefix, the first
slash, then the remainder); on an already-bare address (no `'/'`) the
derivation returns the address unchanged, and it is idempotent in general. -/
theorem toBareAddress_strips_first_slash_and_idem (s : String) :
    ('/' ∈ s.data →
      s.data = (toBareAddress s).data ++ '/' :: afterFirstSlash s ∧
      '/' ∉ (toBareAddress s).data) ∧
    ('/' ∉ s.data → toBareAddress s = s) ∧
    toBareAddress (toBareAddress s) = toBareAddress s := by
  refine ⟨fun h => ⟨?_, ?_⟩, fun h => ?_, ?_⟩
  · simpa [toBareAddress, afterFirstSlash] using takeWhile_ne_append_of_mem h
  · simpa [toBareAddress] using slash_not_mem_takeWhile s.data
  · exact congrArg String.mk (takeWhile_ne_of_not_mem h)
  · have hnm : '/' ∉ (toBareAddress s).data := by
      simpa [toBareAddress] using slash_not_mem_takeWhile s.data
    exact congrArg String.mk (takeWhile_ne_of_not_mem hnm)

/-- Witness for C9 at the concrete addresses of the spec's scenarios. -/
theorem toBareAddress_witness :
    ("alice@example.com/phone".data =
      (toBareAddress "alice@example.com/phone").data ++ '/' :: afterFirstSlash "alice@example.com/phone" ∧
      '/' ∉ (toBareAddress "alice@example.com/phone").data) ∧
    toBareAddress "alice@example.com" = "alice@example.com" := by
  refine ⟨(toBareAddress_strips_first_slash_and_idem "alice@example.com/phone").1 (by decide), ?_⟩
  exact (toBareAddress_strips_first_slash_and_idem "alice@example.com").2.1 (by decide)

/-- C10: calling `send_message` while no connection is established raises
`ConnectionError` and has no effect: no markdown conversion result is used,
no stanza is sent and no log line is produced (the effect list is absent). -/
theorem send_message_not_connected (to_jid body : String) (from_ai : Bool) :
    send_message false to_jid body from_ai = Except.error SendError.connectionError := rfl

/-! ## Ticket data (`self.user_tickets`, lines 31 and 562-567) -/

/-- One `self.user_tickets[jid]` entry (created at lines 562-567). The status
field holds the backend's string (initially `"OPEN"`). -/
structure TicketInfo where
  ticket_id : String
  last_message_count : Nat
  status : String
  full_jid : String
deriving DecidableEq, Repr

/-- `self.user_tickets`, keyed by bare address. -/
abbrev TMap := List (String × TicketInfo)

/-- One element of the JSON array returned by the ticket-messages endpoint
(fields read at lines 644-659; absent keys are `none`). -/
structure TicketMessage where
  content : Option String
  message_type : Option String
  sender : Option String
  is_customer : Bool
  ticket_status : Option String
deriving DecidableEq, Repr

/-- Python truthiness of `msg.get('content')` at line 651: present and
non-empty. -/
def contentTruthy (m : TicketMessage) : Bool :=
  match m.content with
  | none => false
  | some s => s ≠ ""

/-- Outcome of the HTTP GET in `_get_new_ticket_messages`: a 200 body, a 404,
another status code, or a raised `requests` exception. -/
inductive FetchResponse
  | success (messages : List TicketMessage)
  | notFound
  | httpError (code : Nat)
  | requestError
deriving DecidableEq, Repr

/-- `true` exactly when `_get_new_ticket_messages` takes one of its
`return None` branches for this response (lines 752-762). -/
def isErrorResponse : FetchResponse → Bool
  | .success _ => false
  | .notFound => true
  | .httpError _ => true
  | .requestError => true

/-- `_get_new_ticket_messages` (lines 717-762). Returns the Python result
(`None` on error, else the list of unseen messages) together with the updated
`user_tickets` map (`last_message_count` is written at line 748). A missing
`user_jid` key raises `KeyError` at line 740, caught at line 760, hence `none`. -/
def getNewTicketMessages (tickets : TMap) (user_jid : String) (apiConfigured : Bool)
    (resp : FetchResponse) : Option (List TicketMessage) × TMap :=
  if apiConfigured = false then (some [], tickets)
  else
    match resp with
    | .success messages =>
      match alookup tickets user_jid with
      | none => (none, tickets)
      | some info =>
        if info.last_message_count < messages.length then
          (some (messages.drop info.last_message_count),
            aset tickets user_jid { info with last_message_count := messages.length })
        else (some [], tickets)
    | .notFound => (none, tickets)
    | .httpError _ => (none, tickets)
    | .requestError => (none, tickets)

/-- The fold over `new_messages` performed at lines 658-660: each message whose
`ticket_status` is `RESOLVED` or `CLOSED` overwrites the stored status. -/
def updateStatusFromMsgs (info : TicketInfo) (msgs : List TicketMessage) : TicketInfo :=
  msgs.foldl
    (fun acc m =>
      match m.ticket_status with
      | some s => if s = "RESOLVED" ∨ s = "CLOSED" then { acc with status := s } else acc
      | none => acc)
    info

/-! ## The ticket monitor (`_monitor_ticket_until_resolved`, lines 607-673) -/

/-- Why the monitor's `while` loop ended. -/
inductive StopReason
  | noCached
  | statusTerminal
  | errorExhausted
  | shutdown
deriving DecidableEq, Repr

/-- What one loop iteration does next: sleep the given number of seconds and
poll again, or break out of the loop. -/
inductive StepOut
  | next (sleepSeconds : Nat)
  | stopped (reason : StopReason)
deriving DecidableEq, Repr

/-- The external happening consumed by one iteration: the fetch's HTTP
outcome, or an unexpected exception raised inside the loop body (handled by
the `except` clause at lines 664-671). -/
inductive PollEvent
  | response (r : FetchResponse)
  | exn
deriving DecidableEq, Repr

structure StepResult where
  tickets : TMap
  errors : Nat
  sends : List (String × String × Bool)
  out : StepOut
deriving DecidableEq, Repr

/-- `poll_interval` (line 609). -/
def pollInterval : Nat := 3

/-- `max_errors` (line 611). -/
def maxErrors : Nat := 5

/-- The check at lines 626 and 659: `status in ['RESOLVED', 'CLOSED']`. -/
def terminalStatus (s : String) : Bool :=
  s = "RESOLVED" ∨ s = "CLOSED"

/-- One iteration of the body of `_monitor_ticket_until_resolved`
(lines 613-671). `sends` records every `send_message(user_jid, content,
from_ai=True)` call issued at line 655, as (recipient, content, from_ai). -/
def monitorStep (tickets : TMap) (user_jid : String) (consecutiveErrors : Nat)
    (apiConfigured : Bool) (ev : PollEvent) : StepResult :=
  match ev with
  | .exn =>
    let e := consecutiveErrors + 1
    if maxErrors ≤ e then
      ⟨aerase tickets user_jid, e, [], .stopped .errorExhausted⟩
    else ⟨tickets, e, [], .next (pollInterval * 2)⟩
  | .response r =>
    match alookup tickets user_jid with
    | none => ⟨tickets, consecutiveErrors, [], .stopped .noCached⟩
    | some info =>
      if terminalStatus info.status then
        ⟨aerase tickets user_jid, consecutiveErrors, [], .stopped .statusTerminal⟩
      else
        match getNewTicketMessages tickets user_jid apiConfigured r with
        | (none, t2) =>
          let e := consecutiveErrors + 1
          if maxErrors ≤ e then
            ⟨aerase t2 user_jid, e, [], .stopped .errorExhausted⟩
          else ⟨t2, e, [], .next pollInterval⟩
        | (some newMsgs, t2) =>
          let sends := (newMsgs.filter (fun m => (!m.is_customer) && contentTruthy m)).map
            (fun m => (user_jid, m.content.getD "", true))
          let t3 :=
            match alookup t2 user_jid with
            | some info2 => aset t2 user_jid (updateStatusFromMsgs info2 newMsgs)
            | none => t2
          ⟨t3, 0, sends, .next pollInterval⟩

structure RunResult where
  tickets : TMap
  errors : Nat
  stopped : Option StopReason
  polls : Nat
  sleeps : List Nat
deriving DecidableEq, Repr

/-- The `while not self.stop_event.is_set()` loop (line 613): each list entry
pairs the shutdown flag observed at the loop head with the poll event the
iteration would consume. `polls` counts executed iterations, `sleeps` records
every `time.sleep` duration in order. -/
def monitorRun (tickets : TMap) (user_jid : String) (errors : Nat)
    (apiConfigured : Bool) : List (Bool × PollEvent) → RunResult
  | [] => ⟨tickets, errors, none, 0, []⟩
  | (stopFlag, ev) :: rest =>
    if stopFlag then ⟨tickets, errors, some .shutdown, 0, []⟩
    else
      let s := monitorStep tickets user_jid errors apiConfigured ev
      match s.out with
      | .stopped rsn => ⟨s.tickets, s.errors, some rsn, 1, []⟩
      | .next d =>
        let r := monitorRun s.tickets user_jid s.errors apiConfigured rest
        ⟨r.tickets, r.errors, r.stopped, r.polls + 1, d :: r.sleeps⟩

/-! ## Helper lemmas about the monitor -/

theorem getNewTicketMessages_error (tickets : TMap) (user_jid : String)
    {r : FetchResponse} (hr : isErrorResponse r = true) :
    getNewTicketMessages tickets user_jid true r = (none, tickets) := by
  cases r <;> simp_all [getNewTicketMessages, isErrorResponse]

theorem monitorStep_error (m : TMap) (jid : String) (info : TicketInfo) (e : Nat)
    {r : FetchResponse} (h1 : alookup m jid = some info)
    (h2 : terminalStatus info.status = false) (hr : isErrorResponse r = true) :
    monitorStep m jid e true (.response r) =
      if maxErrors ≤ e + 1 then ⟨aerase m jid, e + 1, [], .stopped .errorExhausted⟩
      else ⟨m, e + 1, [], .next pollInterval⟩ := by
  simp [monitorStep, h1, h2, getNewTicketMessages_error m jid hr]

theorem monitorRun_fail_prefix (m : TMap) (jid : String) (info : TicketInfo)
    (h1 : alookup m jid = some info) (h2 : terminalStatus info.status = false) :
    ∀ k e, e + k < maxErrors →
      monitorRun m jid e true (List.replicate k (false, .response .requestError)) =
        ⟨m, e + k, none, k, List.replicate k pollInterval⟩ := by
  intro k
  induction k with
  | zero => intro e _; simp [monitorRun]
  | succ n ih =>
    intro e hlt
    have hstep := monitorStep_error m jid info e h1 h2 (r := .requestError) rfl
    have hcond : ¬ (maxErrors ≤ e + 1) := by
      simp only [maxErrors] at *
      omega
    rw [if_neg hcond] at hstep
    have ihe := ih (e + 1) (by omega)
    simp only [List.replicate, monitorRun, if_neg (Bool.false_ne_true), hstep, ihe]
    congr 1
    all_goals first
    | rfl
    | omega

theorem monitorStep_success_resets (m : TMap) (jid : String) (info : TicketInfo) (e : Nat)
    (msgs : List TicketMessage)
    (h1 : alookup m jid = some info) (h2 : terminalStatus info.status = false) :
    (monitorStep m jid e true (.response (.success msgs))).errors = 0 := by
  by_cases hl : info.last_message_count < msgs.length <;>
    simp [monitorStep, h1, h2, getNewTicketMessages, hl]

/-! ## Concrete sample state shared by several witnesses -/

/-- The cached ticket created for `alice@example.com` after the backend
acknowledged her first message with `ticket_id = "T1"`. -/
def sampleInfo : TicketInfo := ⟨"T1", 0, "OPEN", "alice@example.com/phone"⟩

def sampleTickets : TMap := [("alice@example.com", sampleInfo)]

/-! ## Claims C1, C3, C4, C7 -/

/-- C1 counterexample: a monitor poll whose fetch returns HTTP 404 does NOT
treat the ticket as terminal: after a single 404 the ActiveTicket is still
cached, the error counter is 1, and the loop continues (so further
message-fetch requests for that ticket will be issued), contradicting the
claim that a 404 clears the ActiveTicket with no retry. -/
theorem monitor_404_counterexample :
    monitorStep sampleTickets "alice@example.com" 0 true (.response .notFound) =
      ⟨sampleTickets, 1, [], .next pollInterval⟩ ∧
    alookup sampleTickets "alice@example.com" = some sampleInfo := by
  constructor <;> decide

/-- C1 (amended): a 404 response is counted as one generic fetch failure: the
consecutive-error counter is incremented and, while it stays below 5, the
ActiveTicket is kept and polling continues; only when the counter reaches 5
is the ActiveTicket cleared and the monitor stopped (`error-exhausted`). -/
theorem monitor_404_is_generic_failure (m : TMap) (jid : String) (info : TicketInfo) (e : Nat)
    (h1 : alookup m jid = some info) (h2 : terminalStatus info.status = false) :
    (e + 1 < maxErrors →
      monitorStep m jid e true (.response .notFound) = ⟨m, e + 1, [], .next pollInterval⟩) ∧
    (maxErrors ≤ e + 1 →
      monitorStep m jid e true (.response .notFound) =
        ⟨aerase m jid, e + 1, [], .stopped .errorExhausted⟩) := by
  have hstep := monitorStep_error m jid info e h1 h2 (r := .notFound) rfl
  constructor
  · intro hlt
    rw [hstep, if_neg (by omega)]
  · intro hge
    rw [hstep, if_pos hge]

/-- Witness for C1's amended theorem at the concrete sample state. -/
theorem monitor_404_witness :
    monitorStep sampleTickets "alice@example.com" 4 true (.response .notFound) =
      ⟨[], 5, [], .stopped .errorExhausted⟩ := by
  have h := (monitor_404_is_generic_failure sampleTickets "alice@example.com" sampleInfo 4
    (by decide) (by decide)).2 (by decide)
  exact h.trans (by decide)

/-- C3: when every backend fetch fails (backend unreachable, modelled by the
`requests` exception branch returning `None`), a fresh monitor terminates
after exactly 5 consecutive failed polls: 5 failing polls (followed by
anything) stop it with `error-exhausted` and remove the contact's
ActiveTicket, fewer than 5 failing polls leave it running with the ticket
still cached, and any successful fetch resets the consecutive-error counter
to 0. -/
theorem monitor_error_exhausted_after_five (m : TMap) (jid : String) (info : TicketInfo)
    (h1 : alookup m jid = some info) (h2 : terminalStatus info.status = false) :
    (∀ rest, monitorRun m jid 0 true
        (List.replicate 5 (false, .response .requestError) ++ rest) =
        ⟨aerase m jid, 5, some .errorExhausted, 5, List.replicate 4 pollInterval⟩) ∧
    (∀ k, k < 5 → monitorRun m jid 0 true
        (List.replicate k (false, .response .requestError)) =
        ⟨m, k, none, k, List.replicate k pollInterval⟩) ∧
    (∀ e msgs, (monitorStep m jid e true (.response (.success msgs))).errors = 0) := by
  refine ⟨?_, ?_, fun e msgs => monitorStep_success_resets m jid info e msgs h1 h2⟩
  · intro rest
    have hs : ∀ e, e + 1 < maxErrors →
        monitorStep m jid e true (.response .requestError) =
          ⟨m, e + 1, [], .next pollInterval⟩ := by
      intro e he
      rw [monitorStep_error m jid info e h1 h2 (r := .requestError) rfl, if_neg (by omega)]
    have hlast : monitorStep m jid 4 true (.response .requestError) =
        ⟨aerase m jid, 5, [], .stopped .errorExhausted⟩ := by
      rw [monitorStep_error m jid info 4 h1 h2 (r := .requestError) rfl,
        if_pos (by simp [maxErrors])]
    show monitorRun m jid 0 true
        ((false, .response .requestError) :: (false, .response .requestError) ::
         (false, .response .requestError) :: (false, .response .requestError) ::
         (false, .response .requestError) :: rest) = _
    simp only [monitorRun, if_neg (Bool.false_ne_true),
      hs 0 (by simp [maxErrors]), hs 1 (by simp [maxErrors]), hs 2 (by simp [maxErrors]),
      hs 3 (by simp [maxErrors]), hlast]
    rfl
  · intro k hk
    simpa using monitorRun_fail_prefix m jid info h1 h2 k 0 (by simpa [maxErrors] using hk)

/-- Witness for C3 at the concrete sample state: five unreachable-backend
polls clear alice's ticket and stop the monitor; three such polls do not. -/
theorem monitor_error_exhausted_witness :
    monitorRun sampleTickets "alice@example.com" 0 true
        (List.replicate 5 (false, .response .requestError) ++ []) =
      ⟨[], 5, some .errorExhausted, 5, [3, 3, 3, 3]⟩ ∧
    monitorRun sampleTickets "alice@example.com" 0 true
        (List.replicate 3 (false, .response .requestError)) =
      ⟨sampleTickets, 3, none, 3, [3, 3, 3]⟩ := by
  have h := monitor_error_exhausted_after_five sampleTickets "alice@example.com" sampleInfo
    (by decide) (by decide)
  exact ⟨(h.1 []).trans (by decide), (h.2.1 3 (by decide)).trans (by decide)⟩

/-- C4: on a successful fetch with `total > last_seen_message_count`, the
monitor relays exactly the suffix slice `messages[last_seen:]` filtered to
non-customer messages with non-empty content, each sent once to the contact
with the AI flag; every send originates from that suffix (so a message with
index below the old count is never re-relayed); and the stored
`last_message_count` becomes the new total. -/
theorem monitor_relays_exact_delta (m : TMap) (jid : String) (info : TicketInfo) (e : Nat)
    (msgs : List TicketMessage)
    (h1 : alookup m jid = some info) (h2 : terminalStatus info.status = false)
    (h3 : info.last_message_count < msgs.length) :
    (monitorStep m jid e true (.response (.success msgs))).sends =
      ((msgs.drop info.last_message_count).filter
          (fun mm => (!mm.is_customer) && contentTruthy mm)).map
        (fun mm => (jid, mm.content.getD "", true)) ∧
    (monitorStep m jid e true (.response (.success msgs))).errors = 0 ∧
    (monitorStep m jid e true (.response (.success msgs))).out = .next pollInterval ∧
    alookup (monitorStep m jid e true (.response (.success msgs))).tickets jid =
      some (updateStatusFromMsgs { info with last_message_count := msgs.length }
              (msgs.drop info.last_message_count)) ∧
    (∀ dst c ai, (dst, c, ai) ∈ (monitorStep m jid e true (.response (.success msgs))).sends →
      dst = jid ∧ ai = true ∧
      ∃ mm ∈ msgs.drop info.last_message_count,
        mm.is_customer = false ∧ mm.content = some c ∧ c ≠ "") := by
  have hstep : monitorStep m jid e true (.response (.success msgs)) =
      ⟨aset (aset m jid { info with last_message_count := msgs.length }) jid
          (updateStatusFromMsgs { info with last_message_count := msgs.length }
            (msgs.drop info.last_message_count)),
        0,
        ((msgs.drop info.last_message_count).filter
            (fun mm => (!mm.is_customer) && contentTruthy mm)).map
          (fun mm => (jid, mm.content.getD "", true)),
        .next pollInterval⟩ := by
    simp [monitorStep, h1, h2, getNewTicketMessages, h3, alookup_aset_self]
  refine ⟨by rw [hstep], by rw [hstep], by rw [hstep], ?_, ?_⟩
  · rw [hstep]
    exact alookup_aset_self _ _ _
  · intro dst c ai hmem
    rw [hstep] at hmem
    simp only [List.mem_map, List.mem_filter] at hmem
    obtain ⟨mm, ⟨hmm, hq⟩, heq⟩ := hmem
    simp only [Bool.and_eq_true, Bool.not_eq_true'] at hq
    obtain ⟨hic, hct⟩ := hq
    obtain ⟨hto, hc, hai⟩ : jid = dst ∧ mm.content.getD "" = c ∧ true = ai :=
      ⟨congrArg Prod.fst heq, congrArg (fun p => p.2.1) heq, congrArg (fun p => p.2.2) heq⟩
    cases hcon : mm.content with
    | none => simp [contentTruthy, hcon] at hct
    | some s =>
      have hs : s ≠ "" := by simpa [contentTruthy, hcon] using hct
      have hsc : s = c := by simpa [hcon] using hc
      exact ⟨hto.symm, hai.symm, mm, hmm, hic, by rw [hcon, hsc], hsc ▸ hs⟩

/-- Sample backend messages: two customer messages then one AI reply. -/
def sampleMsgs : List TicketMessage :=
  [⟨some "Hi", none, some "alice", true, none⟩,
   ⟨some "It broke", none, some "alice", true, none⟩,
   ⟨some "Try restarting", some "AI", some "bot", false, none⟩]

/-- Witness for C4 at the concrete sample state: of the three fetched
messages only the AI reply is relayed (as AI), and the stored count becomes 3. -/
theorem monitor_relays_delta_witness :
    (monitorStep sampleTickets "alice@example.com" 0 true
        (.response (.success sampleMsgs))).sends =
      [("alice@example.com", "Try restarting", true)] ∧
    alookup (monitorStep sampleTickets "alice@example.com" 0 true
        (.response (.success sampleMsgs))).tickets "alice@example.com" =
      some ⟨"T1", 3, "OPEN", "alice@example.com/phone"⟩ := by
  have h := monitor_relays_exact_delta sampleTickets "alice@example.com" sampleInfo 0
    sampleMsgs (by decide) (by decide) (by decide)
  exact ⟨h.1.trans (by decide), h.2.2.2.1.trans (by decide)⟩

/-- C7 counterexample: a poll whose fetch fails (here: a raised request
exception inside `_get_new_ticket_messages`, returned as `None`) sleeps the
plain 3-second poll interval, not the doubled backoff the claim promises
after a failure. -/
theorem monitor_backoff_counterexample :
    (monitorStep sampleTickets "alice@example.com" 0 true (.response .requestError)).out =
      .next pollInterval ∧ pollInterval ≠ pollInterval * 2 := by
  constructor <;> decide

/-- C7 (amended): the sleep before the next poll is the fixed 3-second period
both on success and after a failed fetch; the doubled 6-second backoff occurs
only when the loop body itself raises an unexpected exception; and the
shutdown signal is checked at the top of the loop, so a set signal prevents
the iteration (and its sleep) from running at all. -/
theorem monitor_sleep_behavior (m : TMap) (jid : String) (info : TicketInfo) (e : Nat)
    (h1 : alookup m jid = some info) (h2 : terminalStatus info.status = false)
    (he : e + 1 < maxErrors) :
    (∀ msgs, (monitorStep m jid e true (.response (.success msgs))).out =
        .next pollInterval) ∧
    (∀ r, isErrorResponse r = true →
        (monitorStep m jid e true (.response r)).out = .next pollInterval) ∧
    (monitorStep m jid e true .exn).out = .next (pollInterval * 2) ∧
    (∀ ev evs, monitorRun m jid e true ((true, ev) :: evs) =
        ⟨m, e, some .shutdown, 0, []⟩) := by
  refine ⟨?_, ?_, ?_, ?_⟩
  · intro msgs
    by_cases hl : info.last_message_count < msgs.length <;>
      simp [monitorStep, h1, h2, getNewTicketMessages, hl]
  · intro r hr
    rw [monitorStep_error m jid info e h1 h2 hr, if_neg (by omega)]
  · simp only [monitorStep]
    rw [if_neg (by omega)]
  · intro ev evs
    simp [monitorRun]

/-- Witness for C7's amended theorem at the concrete sample state. -/
theorem monitor_sleep_behavior_witness :
    (monitorStep sampleTickets "alice@example.com" 0 true .exn).out = .next 6 ∧
    monitorRun sampleTickets "alice@example.com" 0 true
        [(true, .response .requestError)] =
      ⟨sampleTickets, 0, some .shutdown, 0, []⟩ := by
  have h := monitor_sleep_behavior sampleTickets "alice@example.com" sampleInfo 0
    (by decide) (by decide) (by decide)
  exact ⟨h.2.2.1.trans (by decide), h.2.2.2 (.response .requestError) []⟩

/-! ## Message Bridge (`_send_to_api`, lines 489-605, and `_message_handler`,
lines 378-409) -/

/-- The shared mutable registry touched by `_send_to_api`: the ticket cache
and the monitor-thread table (`self.polling_threads`, modelled by each
thread's `is_alive()` value). -/
structure Bridge where
  user_tickets : TMap
  polling_alive : List (String × Bool)
deriving DecidableEq, Repr

/-- `bare_jid in self.polling_threads and self.polling_threads[bare_jid].is_alive()`. -/
def threadAlive (threads : List (String × Bool)) (k : String) : Bool :=
  match alookup threads k with
  | none => false
  | some b => b

/-- The error the specification says a conflicting `setActiveTicket` raises.
The source never raises it; the embedding keeps the error channel so that
the specified behaviour is expressible. -/
inductive BridgeError
  | conflictError
deriving DecidableEq, Repr

/-- Lines 548-578 of `_send_to_api`: processing a 200 response body. When the
body carries a `ticket_id` and no live monitor exists for the bare address,
a fresh ActiveTicket is stored and a monitor thread is started (`true`);
when a live monitor exists the attempt is skipped with a log line
(`"Already monitoring"`), leaving the registry untouched. No statement on
this path raises, so the result is always `.ok`. The Bool reports whether a
second monitor was started. -/
def processTicketResponse (br : Bridge) (from_jid : String) (ticket_id : Option String) :
    Except BridgeError (Bridge × Bool) :=
  match ticket_id with
  | none => .ok (br, false)
  | some tid =>
    let bare := toBareAddress from_jid
    if threadAlive br.polling_alive bare = false then
      .ok (⟨aset br.user_tickets bare ⟨tid, 0, "OPEN", from_jid⟩,
            aset br.polling_alive bare true⟩, true)
    else .ok (br, false)

/-- Outcome of the webhook POST issued by `_send_to_api` (line 537): a
response with a status code (200 bodies may carry a ticket id), or one of
the raised `requests` exceptions. -/
inductive BackendOutcome
  | http (status : Nat) (ticket_id : Option String)
  | connError
  | timeout
  | reqError
deriving DecidableEq, Repr

/-- `_send_to_api` (lines 489-605). Every failure mode — non-2xx status
(`raise_for_status`), connection error, timeout, other request errors, and
errors while processing the response body — is caught by the `except` chain
at lines 588-605, so the function always returns. -/
def sendToApi (br : Bridge) (apiConfigured : Bool) (from_jid : String)
    (o : BackendOutcome) : Bridge × Bool :=
  if apiConfigured = false then (br, false)
  else
    match o with
    | .http 200 tid => match processTicketResponse br from_jid tid with
      | .ok res => res
      | .error _ => (br, false)
    | .http _ _ => (br, false)
    | .connError => (br, false)
    | .timeout => (br, false)
    | .reqError => (br, false)

/-- Observable effects of `_message_handler`, in program order. -/
inductive Effect
  | recordDiscovered (bare : String)
  | logAppend (sender body : String) (writeOk : Bool)
  | apiPost (from_jid body : String)
  | enqueue (from_jid body : String)
deriving DecidableEq, Repr

/-- `_message_handler` (lines 378-409). `body = none` models a bodyless
protocol stanza; `logWriteOk` is whether the filesystem append inside
`_log_message` succeeds (its failure is swallowed by the `except` at
line 856, so it only shows up in the recorded effect); the backend outcome
is fully absorbed by `_send_to_api`. No statement can propagate an
exception, so the result is always `.ok`. -/
def messageHandler (br : Bridge) (sender : String) (body : Option String)
    (apiConfigured logWriteOk : Bool) (o : BackendOutcome) :
    Except Unit (Bridge × List Effect) :=
  match body with
  | none => .ok (br, [])
  | some b =>
    if b = "" then .ok (br, [])
    else
      let bare := toBareAddress sender
      let e1 : List Effect :=
        if bare ≠ "" ∧ '@' ∈ bare.data then [.recordDiscovered bare] else []
      let br2 := (sendToApi br apiConfigured sender o).1
      let e3 : List Effect := if apiConfigured then [.apiPost sender b] else []
      .ok (br2, e1 ++ .logAppend sender b logWriteOk :: e3 ++ [.enqueue sender b])

/-- Concrete bridge state with a live monitor for alice. -/
def sampleBridge : Bridge :=
  ⟨[("alice@example.com", sampleInfo)], [("alice@example.com", true)]⟩

/-- C2 counterexample: with a live monitor for the contact, a second
acknowledged ticket does NOT fail with `ConflictError` — the call returns
normally (`.ok`), leaving the registry unchanged and starting no second
monitor. The existing-entry and no-second-monitor parts of the claim hold;
the `ConflictError` part is false. -/
theorem setActiveTicket_conflict_counterexample :
    processTicketResponse sampleBridge "alice@example.com/phone" (some "T2") =
      .ok (sampleBridge, false) ∧
    processTicketResponse sampleBridge "alice@example.com/phone" (some "T2") ≠
      .error BridgeError.conflictError ∧
    threadAlive sampleBridge.polling_alive
      (toBareAddress "alice@example.com/phone") = true := by
  refine ⟨by decide, by decide, by decide⟩

/-- C2 (amended): while the existing ticket's monitor is alive, an attempt to
set a second ActiveTicket is silently skipped: no error of any kind is
raised (in particular no `ConflictError`), the existing ActiveTicket entry
is not overwritten, and no second monitor is started. -/
theorem setActiveTicket_skipped_while_alive (br : Bridge) (from_jid tid : String)
    (halive : threadAlive br.polling_alive (toBareAddress from_jid) = true) :
    processTicketResponse br from_jid (some tid) = .ok (br, false) := by
  simp [processTicketResponse, halive]

/-- Witness for C2's amended theorem at the concrete sample bridge. -/
theorem setActiveTicket_skipped_witness :
    processTicketResponse sampleBridge "alice@example.com/phone" (some "T9") =
      .ok (sampleBridge, false) :=
  setActiveTicket_skipped_while_alive sampleBridge "alice@example.com/phone" "T9" (by decide)

/-- C8: for every inbound chat message with a non-empty body the handler
returns normally (never raises) whatever the backend outcome — timeout,
connection error, non-2xx — and whether or not the local log write succeeds;
the produced effect trace always appends the message to the local log BEFORE
the backend submission and always ends by enqueueing the message for the
front-end. -/
theorem messageHandler_total_and_ordered (br : Bridge) (sender b : String)
    (logWriteOk : Bool) (o : BackendOutcome) (hb : b ≠ "") :
    messageHandler br sender (some b) true logWriteOk o =
      .ok ((sendToApi br true sender o).1,
        (if toBareAddress sender ≠ "" ∧ '@' ∈ (toBareAddress sender).data
          then [.recordDiscovered (toBareAddress sender)] else []) ++
        .logAppend sender b logWriteOk :: .apiPost sender b :: [.enqueue sender b]) := by
  simp [messageHandler, hb]

/-- Witness for C8 at a concrete input: a connection error from the backend
still yields a normal return whose trace logs locally, attempts the POST,
and enqueues — even with the local log write itself failing. -/
theorem messageHandler_total_witness :
    messageHandler sampleBridge "alice@example.com/phone" (some "Hi") true false
        BackendOutcome.connError =
      .ok (sampleBridge,
        [.recordDiscovered "alice@example.com",
         .logAppend "alice@example.com/phone" "Hi" false,
         .apiPost "alice@example.com/phone" "Hi",
         .enqueue "alice@example.com/phone" "Hi"]) := by
  have h := messageHandler_total_and_ordered sampleBridge "alice@example.com/phone" "Hi"
    false BackendOutcome.connError (by decide)
  exact h.trans (by decide)

/-! ## Conversation Log Store (`_log_message`, lines 784-857) -/

/-- Python `str.split(sep)` for a one-character separator. -/
def splitOnChar (sep : Char) : List Char → List (List Char)
  | [] => [[]]
  | c :: rest =>
    let r := splitOnChar sep rest
    if c = sep then [] :: r
    else
      match r with
      | [] => [[c]]
      | h :: t => (c :: h) :: t

/-- Python `str.replace('.txt', '')`: removes every occurrence of `.txt`,
scanning left to right. -/
def removeTxt : List Char → List Char
  | '.' :: 't' :: 'x' :: 't' :: rest => removeTxt rest
  | c :: rest => c :: removeTxt rest
  | [] => []

def parseDigitsAux : List Char → Nat → Option Nat
  | [], acc => some acc
  | c :: rest, acc =>
    if c.isDigit then parseDigitsAux rest (acc * 10 + (c.toNat - 48)) else none

/-- A non-empty all-decimal-digit run, as a number. -/
def parseDigits : List Char → Option Nat
  | [] => none
  | cs => parseDigitsAux cs 0

/-- Python `int(s)` restricted to an optional sign followed by decimal digits
(the forms a log filename's trailing segment can take). -/
def pythonInt (cs : List Char) : Option Int :=
  match cs with
  | '-' :: rest => (parseDigits rest).map (fun n => -(n : Int))
  | '+' :: rest => (parseDigits rest).map (fun n => (n : Int))
  | _ => (parseDigits cs).map (fun n => (n : Int))

/-- The glob pattern `{date_str}_*.txt` of line 819: the filename starts with
`date ++ "_"`, ends with `".txt"`, and the two parts do not overlap. -/
def globMatchDate (date : String) (fname : String) : Bool :=
  (date ++ "_").data.isPrefixOf fname.data &&
  ".txt".data.isSuffixOf fname.data &&
  decide ((date ++ "_").data.length + 4 ≤ fname.data.length)

/-- Lines 824-830: take the segment after the last `'_'`, strip `.txt`,
and parse it as an integer (`None` when `int()` would raise). -/
def extractCounter (fname : String) : Option Int :=
  pythonInt (removeTxt ((splitOnChar '_' fname.data).getLastD []))

/-- The `counters` list built at lines 822-830 from the glob matches. -/
def scanCounters (files : List String) (date : String) : List Int :=
  (files.filter (globMatchDate date)).filterMap extractCounter

/-- Python `max` on a non-empty list. -/
def pyMax : List Int → Int
  | [] => 0
  | c :: rest => rest.foldl max c

/-- Lines 819-833: the counter adopted on the first append of the day —
`max(counters) if counters else 1`, and 1 when no file matches the glob. -/
def adoptedCounter (files : List String) (date : String) : Int :=
  match scanCounters files date with
  | [] => 1
  | c :: rest => pyMax (c :: rest)

/-- Decimal digits of a Nat (fuel-based, total). -/
def natDigitsAux : Nat → Nat → List Char
  | 0, _ => []
  | fuel + 1, n =>
    if n < 10 then [Char.ofNat (48 + n)]
    else natDigitsAux fuel (n / 10) ++ [Char.ofNat (48 + n % 10)]

def natDigits (n : Nat) : List Char := natDigitsAux (n + 1) n

/-- Python `f"{c:03d}"`: sign-aware zero padding to a total width of 3. -/
def formatCounter (c : Int) : String :=
  if c < 0 then
    ⟨'-' :: (List.replicate (2 - (natDigits c.natAbs).length) '0' ++ natDigits c.natAbs)⟩
  else ⟨List.replicate (3 - (natDigits c.natAbs).length) '0' ++ natDigits c.natAbs⟩

/-- Python `conversation_with.replace('@', '_at_')` (line 800). -/
def replaceAt : List Char → List Char
  | [] => []
  | '@' :: rest => '_' :: 'a' :: 't' :: '_' :: replaceAt rest
  | c :: rest => c :: replaceAt rest

/-- ASCII lower-casing of `body.lower()` (line 852). -/
def lowerStr (s : String) : List Char := s.data.map Char.toLower

/-- Python substring containment `needle in hay`. -/
def containsSub (needle : List Char) : List Char → Bool
  | [] => decide (needle = [])
  | c :: rest => needle.isPrefixOf (c :: rest) || containsSub needle rest

/-- The rotation trigger at line 852: `'closing ticket' in body.lower()`. -/
def containsClosing (body : String) : Bool :=
  containsSub "closing ticket".data (lowerStr body)

/-- The `msg_type` argument of `_log_message`. -/
inductive MsgType
  | received
  | sent
  | ai_sent
deriving DecidableEq, Repr

/-- The state `_log_message` reads and writes: `self.log_counters` flattened
to ((counter_key, date) → counter), plus the filenames currently present in
each partner directory (keyed by the same `counter_key`). -/
structure LogStore where
  counters : List ((String × String) × Int)
  dirFiles : List (String × List String)
deriving DecidableEq, Repr

/-- Lines 788-809: the `counter_key` — `current_username/person_folder`,
where the partner is the sender of a received line and the recipient of a
sent line, both stripped of their resource. -/
def logConversationKey (selfJid sender recipient : String) (mt : MsgType) : String :=
  let conversation_with :=
    toBareAddress (match mt with | .received => sender | _ => recipient)
  let current_username : String :=
    ⟨(toBareAddress selfJid).data.takeWhile (fun c => c ≠ '@')⟩
  current_username ++ "/" ++ ⟨replaceAt conversation_with.data⟩

/-- Lines 811-835: today's counter — the in-memory one when tracked,
otherwise the one adopted from scanning the partner directory. -/
def resolveCounter (st : LogStore) (key date : String) : Int :=
  match alookup st.counters (key, date) with
  | some c => c
  | none => adoptedCounter ((alookup st.dirFiles key).getD []) date

/-- Line 836: `f"{date_str}_{counter:03d}.txt"`. -/
def segmentName (date : String) (c : Int) : String :=
  date ++ "_" ++ formatCounter c ++ ".txt"

/-- Line 852: `msg_type in ['sent', 'ai_sent'] and 'closing ticket' in body.lower()`. -/
def rotateFlag (mt : MsgType) (body : String) : Bool :=
  (match mt with | .received => false | _ => true) && containsClosing body

/-- The filesystem effect of the `open(filepath, 'a')` append at line 842:
the file now exists in the partner directory. -/
def addFile (files : List String) (fname : String) : List String :=
  if fname ∈ files then files else files ++ [fname]

/-- The transcript line written at lines 843-848. -/
def logLineText (sender body : String) (mt : MsgType) (time : String) : String :=
  "(" ++ time ++ ") " ++
    (match mt with
     | .received => sender ++ ": "
     | .ai_sent => "AI Bot: "
     | .sent => "Me: ") ++ body ++ "\n"

/-- `_log_message` (lines 784-857). Returns the updated state, the filename
the line was appended to, and the appended line. The final counter write
covers both the adoption store (line 831/833) and the rotation increment
(line 853). -/
def logMessage (st : LogStore) (selfJid sender recipient body : String) (mt : MsgType)
    (date time : String) : LogStore × String × String :=
  let key := logConversationKey selfJid sender recipient mt
  let counter := resolveCounter st key date
  let counter2 := if rotateFlag mt body = true then counter + 1 else counter
  (⟨aset st.counters (key, date) counter2,
    aset st.dirFiles key
      (addFile ((alookup st.dirFiles key).getD []) (segmentName date counter))⟩,
   segmentName date counter, logLineText sender body mt time)

theorem alookup_logMessage_counters (st : LogStore)
    (selfJid sender recipient body : String) (mt : MsgType) (date time : String) :
    alookup (logMessage st selfJid sender recipient body mt date time).1.counters
        (logConversationKey selfJid sender recipient mt, date) =
      some (if rotateFlag mt body = true
        then resolveCounter st (logConversationKey selfJid sender recipient mt) date + 1
        else resolveCounter st (logConversationKey selfJid sender recipient mt) date) :=
  alookup_aset_self _ _ _

theorem resolveCounter_aset (cs : List ((String × String) × Int))
    (df2 : List (String × List String)) (key date : String) (v : Int) :
    resolveCounter ⟨aset cs (key, date) v, df2⟩ key date = v := by
  simp [resolveCounter, alookup_aset_self]

/-! ## Helper lemmas about the log counter -/

theorem foldl_max_init_le (t : List Int) : ∀ a : Int, a ≤ t.foldl max a := by
  induction t with
  | nil => intro a; exact le_refl a
  | cons x xs ih => intro a; exact le_trans (le_max_left a x) (ih (max a x))

theorem mem_le_pyMax : ∀ (h : Int) (t : List Int) (c : Int),
    c ∈ h :: t → c ≤ pyMax (h :: t) := by
  intro h t
  induction t generalizing h with
  | nil =>
    intro c hm
    have hc : c = h := by simpa using hm
    simp [pyMax, hc]
  | cons x xs ih =>
    intro c hm
    have hpy : pyMax (h :: x :: xs) = pyMax (max h x :: xs) := rfl
    rw [hpy]
    have hmax : max h x ≤ pyMax (max h x :: xs) :=
      ih (max h x) (max h x) (List.mem_cons_self _ _)
    rcases List.mem_cons.mp hm with h1 | h1
    · rw [h1]
      exact le_trans (le_max_left h x) hmax
    · rcases List.mem_cons.mp h1 with h2 | h2
      · rw [h2]
        exact le_trans (le_max_right h x) hmax
      · exact ih (max h x) c (List.mem_cons_of_mem _ h2)

/-! ## Claims C5 and C6 -/

/-- C5: appending a sent line ("Me" or "AI Bot") whose body case-insensitively
contains "closing ticket" writes the line into the current segment for
(owner, partner, today), then increments the in-memory counter for that
triple, so that the next append for the same (owner, partner, day) goes to
the segment with the next counter; a received line never changes the
counter. -/
theorem log_rotation_on_closing (st : LogStore)
    (selfJid sender recipient body date time : String) (mt : MsgType)
    (hc : containsClosing body = true) (hmt : mt = .sent ∨ mt = .ai_sent) :
    (logMessage st selfJid sender recipient body mt date time).2.1 =
      segmentName date
        (resolveCounter st (logConversationKey selfJid sender recipient mt) date) ∧
    alookup (logMessage st selfJid sender recipient body mt date time).1.counters
        (logConversationKey selfJid sender recipient mt, date) =
      some (resolveCounter st (logConversationKey selfJid sender recipient mt) date + 1) ∧
    (∀ s2 r2 b2 t2 (mt2 : MsgType),
      logConversationKey selfJid s2 r2 mt2 =
        logConversationKey selfJid sender recipient mt →
      (logMessage (logMessage st selfJid sender recipient body mt date time).1
          selfJid s2 r2 b2 mt2 date t2).2.1 =
        segmentName date
          (resolveCounter st (logConversationKey selfJid sender recipient mt) date + 1)) ∧
    (∀ body3 time3,
      alookup (logMessage st selfJid sender recipient body3 .received date time3).1.counters
          (logConversationKey selfJid sender recipient .received, date) =
        some (resolveCounter st (logConversationKey selfJid sender recipient .received) date)) := by
  have hrot : rotateFlag mt body = true := by
    rcases hmt with h | h <;> subst h <;> simp [rotateFlag, hc]
  have hcount : alookup (logMessage st selfJid sender recipient body mt date time).1.counters
      (logConversationKey selfJid sender recipient mt, date) =
      some (resolveCounter st (logConversationKey selfJid sender recipient mt) date + 1) := by
    rw [alookup_logMessage_counters, if_pos hrot]
  refine ⟨rfl, hcount, ?_, ?_⟩
  · intro s2 r2 b2 t2 mt2 hkey
    show segmentName date (resolveCounter
        (logMessage st selfJid sender recipient body mt date time).1
        (logConversationKey selfJid s2 r2 mt2) date) = _
    rw [hkey]
    have hres : resolveCounter (logMessage st selfJid sender recipient body mt date time).1
        (logConversationKey selfJid sender recipient mt) date =
        resolveCounter st (logConversationKey selfJid sender recipient mt) date + 1 := by
      simp [resolveCounter, hcount]
    rw [hres]
  · intro body3 time3
    rw [alookup_logMessage_counters, if_neg (by simp [rotateFlag])]

/-- Witness for C5 at the spec's scenario: the closing line goes to
`2024-01-15_001.txt` and the next message for the same contact on the same
day goes to `2024-01-15_002.txt`. -/
theorem log_rotation_witness :
    (logMessage ⟨[], []⟩ "me@example.com" "me@example.com" "alice@example.com"
        "Closing ticket, thanks!" .sent "2024-01-15" "2024-01-15 10:00:00").2.1 =
      "2024-01-15_001.txt" ∧
    (logMessage (logMessage ⟨[], []⟩ "me@example.com" "me@example.com" "alice@example.com"
          "Closing ticket, thanks!" .sent "2024-01-15" "2024-01-15 10:00:00").1
        "me@example.com" "me@example.com" "alice@example.com" "hello again" .sent
        "2024-01-15" "2024-01-15 10:05:00").2.1 =
      "2024-01-15_002.txt" := by
  have h := log_rotation_on_closing ⟨[], []⟩ "me@example.com" "me@example.com"
    "alice@example.com" "Closing ticket, thanks!" "2024-01-15" "2024-01-15 10:00:00"
    .sent (by decide) (Or.inl rfl)
  exact ⟨h.1.trans (by decide),
    (h.2.2.1 "me@example.com" "alice@example.com" "hello again" "2024-01-15 10:05:00"
      .sent rfl).trans (by decide)⟩

/-- C6 counterexample: the directory contains a file named
`2024-01-15_draft.txt`, which matches the scanned pattern `2024-01-15_*.txt`,
yet the adopted counter is the default 1 (its trailing segment is not an
integer) — contradicting "starts at 1 only if no such file exists". -/
theorem log_counter_start_counterexample :
    adoptedCounter ["2024-01-15_draft.txt"] "2024-01-15" = 1 ∧
    globMatchDate "2024-01-15" "2024-01-15_draft.txt" = true ∧
    resolveCounter ⟨[], [("me/alice_at_example.com", ["2024-01-15_draft.txt"])]⟩
        "me/alice_at_example.com" "2024-01-15" = 1 := by
  refine ⟨by decide, by decide, by decide⟩

/-- C6 (amended): the adopted counter on the first append of a day is the
maximum integer counter parsed from the files matching `<date>_*.txt`
(so it is at least every parseable counter present, making the counter
non-decreasing across restarts), and it defaults to 1 exactly when no
matching file yields a parseable integer counter (files whose trailing
segment is not an integer are ignored); within a run, an append never
decreases the tracked counter. -/
theorem log_counter_adoption_monotonic (files : List String) (date : String)
    (st : LogStore) (selfJid sender recipient body time : String) (mt : MsgType) :
    (scanCounters files date = [] → adoptedCounter files date = 1) ∧
    (∀ f, f ∈ files → ∀ c, globMatchDate date f = true → extractCounter f = some c →
      c ≤ adoptedCounter files date) ∧
    (alookup st.counters (logConversationKey selfJid sender recipient mt, date) = none →
      resolveCounter st (logConversationKey selfJid sender recipient mt) date =
        adoptedCounter
          ((alookup st.dirFiles (logConversationKey selfJid sender recipient mt)).getD [])
          date) ∧
    (resolveCounter st (logConversationKey selfJid sender recipient mt) date ≤
      resolveCounter (logMessage st selfJid sender recipient body mt date time).1
        (logConversationKey selfJid sender recipient mt) date) := by
  refine ⟨?_, ?_, ?_, ?_⟩
  · intro hsc
    simp [adoptedCounter, hsc]
  · intro f hf c hg he
    have hmem : c ∈ scanCounters files date := by
      simp only [scanCounters, List.mem_filterMap, List.mem_filter]
      exact ⟨f, ⟨hf, hg⟩, he⟩
    cases hsc : scanCounters files date with
    | nil => rw [hsc] at hmem; cases hmem
    | cons h t =>
      rw [hsc] at hmem
      simpa [adoptedCounter, hsc] using mem_le_pyMax h t c hmem
  · intro hnone
    simp [resolveCounter, hnone]
  · have h1 : resolveCounter (logMessage st selfJid sender recipient body mt date time).1
        (logConversationKey selfJid sender recipient mt) date =
        (if rotateFlag mt body = true
         then resolveCounter st (logConversationKey selfJid sender recipient mt) date + 1
         else resolveCounter st (logConversationKey selfJid sender recipient mt) date) :=
      resolveCounter_aset _ _ _ _ _
    rw [h1]
    split <;> omega

/-- Witness for C6's amended theorem: with segments 001 and 003 on disk the
adopted counter is at least 3, and an empty directory yields the default 1. -/
theorem log_counter_adoption_witness :
    (3 : Int) ≤ adoptedCounter ["2024-01-15_001.txt", "2024-01-15_003.txt"] "2024-01-15" ∧
    adoptedCounter [] "2024-01-15" = 1 := by
  have h := log_counter_adoption_monotonic ["2024-01-15_001.txt", "2024-01-15_003.txt"]
    "2024-01-15" ⟨[], []⟩ "me@example.com" "me@example.com" "alice@example.com" "x" "t"
    MsgType.sent
  have h2 := log_counter_adoption_monotonic [] "2024-01-15" ⟨[], []⟩ "me@example.com"
    "me@example.com" "alice@example.com" "x" "t" MsgType.sent
  exact ⟨h.2.1 "2024-01-15_003.txt" (by decide) 3 (by decide) (by decide),
    h2.1 (by decide)⟩

end XMPPBridge
